import Mathlib

/-!
Shallow embedding of `src/checksum.cpp`, a CRC checksum program with three
built-in variants (CRC-32/ISO-HDLC, CRC-16/ARC, CRC-7/MMC), each computed
byte-wise through a 256-entry lookup table.

Modelling conventions:
* C unsigned integers (`uint32_t`, `uint16_t`, `uint8_t`) are `Nat` with an
  explicit `% 2 ^ w` at every operation that can overflow its C type.
* `char` is modelled as signed 8-bit (as on the x86 platforms the program
  targets); its usual arithmetic conversion to a 32-bit value is a
  two's-complement sign extension, `charPattern` below.
* The three global lookup tables and their `bool` initialization flags form an
  explicit program state `Stare`; the `initializare_tabel*` functions are state
  transformers and the `calcul*` functions read the state.
* An out-of-bounds array read (possible in `calculCRC7`, whose index is not
  masked) is undefined behaviour and is modelled by returning `none`.
-/

set_option maxRecDepth 100000

namespace Checksum

/-- `#define SIZE 256`, the number of entries of each lookup table. -/
def SIZE : Nat := 256

/-- `#define polinomCRC32 0xEDB88320` (reflected CRC-32/ISO-HDLC polynomial). -/
def polinomCRC32 : Nat := 0xEDB88320

/-- `#define polinomCRC16 0xA001` (reflected CRC-16/ARC polynomial). -/
def polinomCRC16 : Nat := 0xA001

/-- `#define polinomCRC7 0x12`, which is `0x09 <<< 1`. -/
def polinomCRC7 : Nat := 0x12

/-- Eight iterations of a register-update step, the inner
`for (bit = 0; bit < 8; bit++)` loop of each table builder. -/
def iter8 (f : Nat → Nat) (r : Nat) : Nat :=
  f (f (f (f (f (f (f (f r)))))))

/-- One iteration of the inner loop of `initializare_tabel32`: on a `uint32_t`
register, `if (octet & 1) { octet >>= 1; octet ^= polinomCRC32; } else octet >>= 1;`. -/
def pas_tabel32 (octet : Nat) : Nat :=
  if octet &&& 1 = 1 then (octet >>> 1) ^^^ polinomCRC32 else octet >>> 1

/-- One iteration of the inner loop of `initializare_tabel16` (`uint16_t` register). -/
def pas_tabel16 (octet : Nat) : Nat :=
  if octet &&& 1 = 1 then (octet >>> 1) ^^^ polinomCRC16 else octet >>> 1

/-- One iteration of the inner loop of `initializare_tabel7`: on a `uint8_t`
register, `if (octet & 0x80) { octet <<= 1; octet ^= polinomCRC7; } else octet <<= 1;`;
the assignment back to `uint8_t` truncates the shift modulo 256. -/
def pas_tabel7 (octet : Nat) : Nat :=
  if octet &&& 0x80 = 0x80 then ((octet <<< 1) % 256) ^^^ polinomCRC7
  else (octet <<< 1) % 256

/-- The value `initializare_tabel32` stores at index `deimpartit`. -/
def tabel32_element (deimpartit : Nat) : Nat := iter8 pas_tabel32 deimpartit

/-- The value `initializare_tabel16` stores at index `deimpartit`. -/
def tabel16_element (deimpartit : Nat) : Nat := iter8 pas_tabel16 deimpartit

/-- The value `initializare_tabel7` stores at index `deimpartit`. -/
def tabel7_element (deimpartit : Nat) : Nat := iter8 pas_tabel7 deimpartit

/-- The mutable globals of the program: the three `bool` initialization flags
and the three lookup-table arrays (a table is a function on indices; all
accesses the program makes are below `SIZE`). -/
structure Stare where
  tabel_CRC32_initializat : Bool
  tabel_CRC16_initializat : Bool
  tabel_CRC7_initializat : Bool
  tabel_CRC32 : Nat → Nat
  tabel_CRC16 : Nat → Nat
  tabel_CRC7 : Nat → Nat

/-- The state at program start: flags `false`, tables zero-initialized
(global arrays of static storage duration). -/
def stare0 : Stare :=
  { tabel_CRC32_initializat := false
    tabel_CRC16_initializat := false
    tabel_CRC7_initializat := false
    tabel_CRC32 := fun _ => 0
    tabel_CRC16 := fun _ => 0
    tabel_CRC7 := fun _ => 0 }

/-- `initializare_tabel32`: sets the flag and fills all 256 entries. -/
def initializare_tabel32 (s : Stare) : Stare :=
  { s with
    tabel_CRC32_initializat := true
    tabel_CRC32 := fun d => tabel32_element (d % SIZE) }

/-- `initializare_tabel16`: sets the flag and fills all 256 entries. -/
def initializare_tabel16 (s : Stare) : Stare :=
  { s with
    tabel_CRC16_initializat := true
    tabel_CRC16 := fun d => tabel16_element (d % SIZE) }

/-- `initializare_tabel7`: sets the flag and fills all 256 entries. -/
def initializare_tabel7 (s : Stare) : Stare :=
  { s with
    tabel_CRC7_initializat := true
    tabel_CRC7 := fun d => tabel7_element (d % SIZE) }

/-- The 32-bit two's-complement pattern of `input[bit]`: a byte `b` stored in a
(signed) `char` and promoted to `int` sign-extends when `b ≥ 128`. -/
def charPattern (b : Nat) : Nat :=
  if b % 256 < 128 then b % 256 else 0xFFFFFF00 + b % 256

/-- The loop of `calculCRC32` over the remaining input, carrying `rezultat`:
`termen = (input[bit] ^ rezultat) & 0xFF; rezultat = (rezultat >> 8) ^ tabel_CRC32[termen];`. -/
def bucla32 (t : Nat → Nat) : Nat → List Nat → Nat
  | rezultat, [] => rezultat
  | rezultat, b :: rest =>
      bucla32 t (((rezultat >>> 8) ^^^ t ((charPattern b ^^^ rezultat) &&& 0xFF)) % 2 ^ 32) rest

/-- `calculCRC32`: initial register `0xFFFFFFFF`, table fold, final XOR `0xFFFFFFFF`. -/
def calculCRC32 (s : Stare) (input : List Nat) : Nat :=
  bucla32 s.tabel_CRC32 0xFFFFFFFF input ^^^ 0xFFFFFFFF

/-- The loop of `calculCRC16` (register is a `uint16_t`, truncated mod `2 ^ 16`). -/
def bucla16 (t : Nat → Nat) : Nat → List Nat → Nat
  | rezultat, [] => rezultat
  | rezultat, b :: rest =>
      bucla16 t (((rezultat >>> 8) ^^^ t ((charPattern b ^^^ rezultat) &&& 0xFF)) % 2 ^ 16) rest

/-- `calculCRC16`: initial register `0`, table fold, no final XOR. -/
def calculCRC16 (s : Stare) (input : List Nat) : Nat :=
  bucla16 s.tabel_CRC16 0 input

/-- The loop of `calculCRC7`: `rezultat = tabel_CRC7[rezultat ^ input[bit]];`.
The index `rezultat ^ input[bit]` is computed in `int` and is NOT masked: when
its 32-bit pattern is outside `[0, SIZE)` the array read is out of bounds
(undefined behaviour), modelled as `none`.  A read from the `uint8_t` array
yields a value below 256. -/
def bucla7 (t : Nat → Nat) : Nat → List Nat → Option Nat
  | rezultat, [] => some rezultat
  | rezultat, b :: rest =>
      if rezultat ^^^ charPattern b < SIZE then
        bucla7 t (t (rezultat ^^^ charPattern b) % 256) rest
      else none

/-- `calculCRC7`: initial register `0`, table fold, returns `rezultat >> 1`. -/
def calculCRC7 (s : Stare) (input : List Nat) : Option Nat :=
  (bucla7 s.tabel_CRC7 0 input).map (fun rezultat => rezultat >>> 1)

/-- Menu option 1 of `main`: initializes all three tables. -/
def optiune_init_tabele (s : Stare) : Stare :=
  initializare_tabel7 (initializare_tabel16 (initializare_tabel32 s))

/-- The state after menu option 1 has run from program start. -/
def stare_initializata : Stare := optiune_init_tabele stare0

/-- Menu option 2 of `main`: if `tabel_CRC32_initializat` is unset, print the
warning and perform no computation (`none`); else call `calculCRC32`. -/
def meniu_calcul_CRC32 (s : Stare) (input : List Nat) : Option Nat :=
  if s.tabel_CRC32_initializat then some (calculCRC32 s input) else none

/-- Menu option 3 of `main`: guard on `tabel_CRC16_initializat`, then `calculCRC16`. -/
def meniu_calcul_CRC16 (s : Stare) (input : List Nat) : Option Nat :=
  if s.tabel_CRC16_initializat then some (calculCRC16 s input) else none

/-- Menu option 4 of `main`: guard on `tabel_CRC7_initializat`, then `calculCRC7`. -/
def meniu_calcul_CRC7 (s : Stare) (input : List Nat) : Option (Option Nat) :=
  if s.tabel_CRC7_initializat then some (calculCRC7 s input) else none

/-- Program states reachable through `main`'s menu loop: the start state, and
any state after menu option 1; the compute options do not change the state. -/
inductive Accesibil : Stare → Prop
  | start : Accesibil stare0
  | init (s : Stare) : Accesibil s → Accesibil (optiune_init_tabele s)

/-- The bytes of the standard check string `"123456789"`. -/
def sirDeVerificare : List Nat := [0x31, 0x32, 0x33, 0x34, 0x35, 0x36, 0x37, 0x38, 0x39]

/-! ### Specification-side definitions

These follow the wording of the specification (its §4.1 table-construction
procedures and the claims derived from them), to be compared with the
definitions above that embed the source. -/

/-- One step of the spec's reflected (LSB-first) procedure: "if the least
significant bit of `r` is 1, set `r = (r >> 1) XOR polynomial`, else `r = r >> 1`". -/
def pas_spec_reflectat (poly r : Nat) : Nat :=
  if r % 2 = 1 then (r / 2) ^^^ poly else r / 2

/-- The spec's reflected table entry for byte value `d`: start with `r = d`
and apply the reflected step 8 times. -/
def element_spec_reflectat (poly d : Nat) : Nat := iter8 (pas_spec_reflectat poly) d

/-- One step of the spec's MSB-first procedure on a width-7 register: "if the
bit at position `width-1` (bit 6) is 1, set `r = (r << 1) XOR polynomial`,
else `r = r << 1`", the register masked to 7 bits. -/
def pas_spec_msb7 (poly r : Nat) : Nat :=
  if r / 64 % 2 = 1 then ((r <<< 1) ^^^ poly) % 128 else (r <<< 1) % 128

/-- The spec's width-7 MSB-first table entry for byte value `d`, with the
polynomial the source names for CRC-7 (`polinomCRC7`), stored masked to 7 bits. -/
def element_spec_msb7 (d : Nat) : Nat := iter8 (pas_spec_msb7 polinomCRC7) d

/-- Bit-level MSB-first CRC step for a true 7-bit register with polynomial
`0x09 = polinomCRC7 >>> 1`: feed one message bit `m`. -/
def pas_bit_msb7 (r m : Nat) : Nat :=
  if (r / 64 + m) % 2 = 1 then ((r <<< 1) % 128) ^^^ (polinomCRC7 >>> 1)
  else (r <<< 1) % 128

/-- The eight bits of byte `d`, most significant first. -/
def biti_octet (d : Nat) : List Nat :=
  [d >>> 7 &&& 1, d >>> 6 &&& 1, d >>> 5 &&& 1, d >>> 4 &&& 1,
   d >>> 3 &&& 1, d >>> 2 &&& 1, d >>> 1 &&& 1, d &&& 1]

/-- The 7-bit remainder of the MSB-first bit-by-bit division of byte `d` by
the width-7 polynomial `0x09`, starting from a zero register. -/
def crc7_bit_cu_bit (d : Nat) : Nat := List.foldl pas_bit_msb7 0 (biti_octet d)

/-! ### Lookup-counting instrumentation

The same three compute loops, additionally returning the number of lookup-table
reads performed.  For `bucla7` the loop aborts at an out-of-bounds index
(undefined behaviour), so the faulting access and everything after it are not
counted as performed lookups. -/

/-- `bucla32` instrumented with the number of table reads it performs. -/
def bucla32_contor (t : Nat → Nat) : Nat → List Nat → Nat × Nat
  | rezultat, [] => (rezultat, 0)
  | rezultat, b :: rest =>
      ((bucla32_contor t
          (((rezultat >>> 8) ^^^ t ((charPattern b ^^^ rezultat) &&& 0xFF)) % 2 ^ 32) rest).1,
       (bucla32_contor t
          (((rezultat >>> 8) ^^^ t ((charPattern b ^^^ rezultat) &&& 0xFF)) % 2 ^ 32) rest).2 + 1)

/-- `bucla16` instrumented with the number of table reads it performs. -/
def bucla16_contor (t : Nat → Nat) : Nat → List Nat → Nat × Nat
  | rezultat, [] => (rezultat, 0)
  | rezultat, b :: rest =>
      ((bucla16_contor t
          (((rezultat >>> 8) ^^^ t ((charPattern b ^^^ rezultat) &&& 0xFF)) % 2 ^ 16) rest).1,
       (bucla16_contor t
          (((rezultat >>> 8) ^^^ t ((charPattern b ^^^ rezultat) &&& 0xFF)) % 2 ^ 16) rest).2 + 1)

/-- `bucla7` instrumented with the number of table reads it completes before
terminating or hitting an out-of-bounds index. -/
def bucla7_contor (t : Nat → Nat) : Nat → List Nat → Option Nat × Nat
  | rezultat, [] => (some rezultat, 0)
  | rezultat, b :: rest =>
      if rezultat ^^^ charPattern b < SIZE then
        ((bucla7_contor t (t (rezultat ^^^ charPattern b) % 256) rest).1,
         (bucla7_contor t (t (rezultat ^^^ charPattern b) % 256) rest).2 + 1)
      else (none, 0)

/-! ### Helper lemmas -/

/-- XOR of two bytes is a byte. -/
theorem xor_lt_256 {a b : Nat} (ha : a < 256) (hb : b < 256) : a ^^^ b < 256 := by
  have h := Nat.xor_lt_two_pow (n := 8) ha hb
  simpa using h

/-- Exhaustive check: the CRC-32 table entries match the spec's reflected procedure. -/
theorem tabel32_conform : ∀ d < 256, tabel32_element d = element_spec_reflectat polinomCRC32 d := by
  decide

/-- Exhaustive check: the CRC-16 table entries match the spec's reflected procedure. -/
theorem tabel16_conform : ∀ d < 256, tabel16_element d = element_spec_reflectat polinomCRC16 d := by
  decide

/-- Exhaustive check: each CRC-7 table entry is twice the 7-bit MSB-first
bit-by-bit remainder of its index. -/
theorem tabel7_dublu_bit_cu_bit : ∀ d < 256, tabel7_element d = 2 * crc7_bit_cu_bit d := by
  decide

/-- Exhaustive check: every CRC-7 table entry fits in 8 bits. -/
theorem tabel7_sub_256 : ∀ d < 256, tabel7_element d < 2 ^ 8 := by
  decide

/-- Exhaustive check: `calculCRC16` with a built table maps the single byte `e`
to the spec's 8-step LSB-first division of `e`, which is table entry `e`. -/
theorem bucla16_un_octet :
    ∀ e < 256, bucla16 (fun d => tabel16_element (d % SIZE)) 0 [e] =
        element_spec_reflectat polinomCRC16 e ∧
      bucla16 (fun d => tabel16_element (d % SIZE)) 0 [e] = tabel16_element (e % SIZE) := by
  decide

/-- With the zero-initialized table, the CRC-16 register stays 0. -/
theorem bucla16_tabel_zero : ∀ input : List Nat, bucla16 (fun _ => 0) 0 input = 0
  | [] => rfl
  | b :: rest => by
      have ih := bucla16_tabel_zero rest
      simpa [bucla16] using ih

/-- With the zero-initialized table and bytes below `0x80`, the CRC-7 register
stays 0 and every index is in bounds. -/
theorem bucla7_tabel_zero :
    ∀ input : List Nat, (∀ b ∈ input, b % 256 < 128) → bucla7 (fun _ => 0) 0 input = some 0
  | [], _ => rfl
  | b :: rest, h => by
      have hb0 : b % 256 < 128 := h b (List.mem_cons_self b rest)
      have hcp : charPattern b = b % 256 := if_pos hb0
      have hidx : (0 : Nat) ^^^ charPattern b < SIZE := by
        rw [Nat.zero_xor, hcp]
        exact lt_trans hb0 (by decide)
      have ih := bucla7_tabel_zero rest (fun x hx => h x (List.mem_cons_of_mem b hx))
      simp only [bucla7, if_pos hidx]
      simpa using ih

/-- The CRC-7 loop register stays below 256 when it starts below 256. -/
theorem bucla7_marginit (t : Nat → Nat) :
    ∀ (input : List Nat) (r0 : Nat), r0 < 256 → ∀ r, bucla7 t r0 input = some r → r < 256
  | [], r0, h0, r, hr => by
      have h := Option.some.inj hr
      omega
  | b :: rest, r0, h0, r, hr => by
      by_cases h : r0 ^^^ charPattern b < SIZE
      · exact bucla7_marginit t rest (t (r0 ^^^ charPattern b) % 256)
          (Nat.mod_lt _ (by norm_num)) r (by simpa [bucla7, if_pos h] using hr)
      · simp [bucla7, if_neg h] at hr

/-- The instrumented CRC-32 loop counts one table read per byte and computes
the same value as the plain loop. -/
theorem bucla32_contor_conform (t : Nat → Nat) :
    ∀ (input : List Nat) (r : Nat),
      (bucla32_contor t r input).2 = input.length ∧
        (bucla32_contor t r input).1 = bucla32 t r input
  | [], r => ⟨rfl, rfl⟩
  | b :: rest, r => by
      refine ⟨?_, ?_⟩
      · show (bucla32_contor t (((r >>> 8) ^^^ t ((charPattern b ^^^ r) &&& 0xFF)) % 2 ^ 32)
            rest).2 + 1 = rest.length + 1
        exact congrArg (· + 1) (bucla32_contor_conform t rest _).1
      · show (bucla32_contor t (((r >>> 8) ^^^ t ((charPattern b ^^^ r) &&& 0xFF)) % 2 ^ 32)
            rest).1 = bucla32 t (((r >>> 8) ^^^ t ((charPattern b ^^^ r) &&& 0xFF)) % 2 ^ 32) rest
        exact (bucla32_contor_conform t rest _).2

/-- The instrumented CRC-16 loop counts one table read per byte and computes
the same value as the plain loop. -/
theorem bucla16_contor_conform (t : Nat → Nat) :
    ∀ (input : List Nat) (r : Nat),
      (bucla16_contor t r input).2 = input.length ∧
        (bucla16_contor t r input).1 = bucla16 t r input
  | [], r => ⟨rfl, rfl⟩
  | b :: rest, r => by
      refine ⟨?_, ?_⟩
      · show (bucla16_contor t (((r >>> 8) ^^^ t ((charPattern b ^^^ r) &&& 0xFF)) % 2 ^ 16)
            rest).2 + 1 = rest.length + 1
        exact congrArg (· + 1) (bucla16_contor_conform t rest _).1
      · show (bucla16_contor t (((r >>> 8) ^^^ t ((charPattern b ^^^ r) &&& 0xFF)) % 2 ^ 16)
            rest).1 = bucla16 t (((r >>> 8) ^^^ t ((charPattern b ^^^ r) &&& 0xFF)) % 2 ^ 16) rest
        exact (bucla16_contor_conform t rest _).2

/-- The instrumented CRC-7 loop counts one table read per byte when the
register starts below 256 and every byte is below `0x80`. -/
theorem bucla7_contor_conform (t : Nat → Nat) :
    ∀ (input : List Nat) (r : Nat), r < 256 → (∀ b ∈ input, b % 256 < 128) →
      (bucla7_contor t r input).2 = input.length ∧
        (bucla7_contor t r input).1 = bucla7 t r input
  | [], r, _, _ => ⟨rfl, rfl⟩
  | b :: rest, r, hr, hb => by
      have hb0 : b % 256 < 128 := hb b (List.mem_cons_self b rest)
      have hcp : charPattern b = b % 256 := if_pos hb0
      have hidx : r ^^^ charPattern b < SIZE := by
        rw [hcp]
        exact xor_lt_256 hr (lt_trans hb0 (by norm_num))
      have ih := bucla7_contor_conform t rest (t (r ^^^ charPattern b) % 256)
        (Nat.mod_lt _ (by norm_num)) (fun x hx => hb x (List.mem_cons_of_mem b hx))
      simp [bucla7_contor, bucla7, if_pos hidx, ih.1, ih.2]

/-- `calculCRC32` run after `initializare_tabel32` does not depend on the prior
state: only the freshly written table is read. -/
theorem calcul32_dupa_init (s s' : Stare) (input : List Nat) :
    calculCRC32 (initializare_tabel32 s) input =
      calculCRC32 (initializare_tabel32 s') input := rfl

/-- `calculCRC16` run after `initializare_tabel16` does not depend on the prior state. -/
theorem calcul16_dupa_init (s s' : Stare) (input : List Nat) :
    calculCRC16 (initializare_tabel16 s) input =
      calculCRC16 (initializare_tabel16 s') input := rfl

/-- `calculCRC7` run after `initializare_tabel7` does not depend on the prior state. -/
theorem calcul7_dupa_init (s s' : Stare) (input : List Nat) :
    calculCRC7 (initializare_tabel7 s) input =
      calculCRC7 (initializare_tabel7 s') input := rfl

/-- On the empty input `calculCRC32` reads no table, so the state is irrelevant. -/
theorem calcul32_vid (s : Stare) : calculCRC32 s [] = calculCRC32 stare0 [] := rfl

/-- On the empty input `calculCRC16` reads no table, so the state is irrelevant. -/
theorem calcul16_vid (s : Stare) : calculCRC16 s [] = calculCRC16 stare0 [] := rfl

/-- On the empty input `calculCRC7` reads no table, so the state is irrelevant. -/
theorem calcul7_vid (s : Stare) : calculCRC7 s [] = calculCRC7 stare0 [] := rfl

/-! ### Claim theorems -/

/-- C1: after its lookup table has been initialized, each compute function maps
the standard check string `"123456789"` to the published catalogue value of its
parameter tuple: `calculCRC32` returns `0xCBF43926` (CRC-32/ISO-HDLC),
`calculCRC16` returns `0xBB3D` (CRC-16/ARC), and `calculCRC7` returns `0x75`
(CRC-7/MMC). -/
theorem c1_valori_de_verificare (s : Stare) :
    calculCRC32 (initializare_tabel32 s) sirDeVerificare = 0xCBF43926 ∧
      calculCRC16 (initializare_tabel16 s) sirDeVerificare = 0xBB3D ∧
      calculCRC7 (initializare_tabel7 s) sirDeVerificare = some 0x75 :=
  ⟨(calcul32_dupa_init s stare0 sirDeVerificare).trans (by decide),
    (calcul16_dupa_init s stare0 sirDeVerificare).trans (by decide),
    (calcul7_dupa_init s stare0 sirDeVerificare).trans (by decide)⟩

/-- C2: after `initializare_tabel32` (respectively `initializare_tabel16`) has
run, table entry `d` equals the result of the reflected LSB-first procedure —
start with `r = d` and 8 times replace `r` by `(r >>> 1) ^^^ polynomial` when
the least significant bit of `r` is 1 and by `r >>> 1` otherwise — with
polynomial `0xEDB88320` for CRC-32 and `0xA001` for CRC-16, for every byte
value `d < 256`. -/
theorem c2_tabele_reflectate (s : Stare) (d : Nat) (hd : d < 256) :
    (initializare_tabel32 s).tabel_CRC32 d = element_spec_reflectat polinomCRC32 d ∧
      (initializare_tabel16 s).tabel_CRC16 d = element_spec_reflectat polinomCRC16 d := by
  have hmod : d % SIZE = d := Nat.mod_eq_of_lt hd
  constructor
  · show tabel32_element (d % SIZE) = element_spec_reflectat polinomCRC32 d
    rw [hmod]
    exact tabel32_conform d hd
  · show tabel16_element (d % SIZE) = element_spec_reflectat polinomCRC16 d
    rw [hmod]
    exact tabel16_conform d hd

/-- Witness for C2 at `d = 0xB7`. -/
theorem c2_tabele_reflectate_martor :
    (initializare_tabel32 stare0).tabel_CRC32 0xB7 =
        element_spec_reflectat polinomCRC32 0xB7 ∧
      (initializare_tabel16 stare0).tabel_CRC16 0xB7 =
        element_spec_reflectat polinomCRC16 0xB7 :=
  c2_tabele_reflectate stare0 0xB7 (by decide)

/-- C3 counterexample: at `d = 1` the entry stored by `initializare_tabel7` is
`0x12`, while the claimed width-7 procedure (test bit 6, entry masked to 7 bits,
with the source's CRC-7 polynomial) yields `0x24`. -/
theorem c3_contraexemplu :
    (initializare_tabel7 stare0).tabel_CRC7 1 = 0x12 ∧
      element_spec_msb7 1 = 0x24 ∧
      (initializare_tabel7 stare0).tabel_CRC7 1 ≠ element_spec_msb7 1 := by
  decide

/-- C3 (amended): `initializare_tabel7` runs the MSB-first procedure on the full
8-bit register, testing bit 7 and XORing the pre-shifted polynomial
`polinomCRC7 = 0x12 = 0x09 <<< 1`, and stores the entry without masking it to
7 bits: the stored entry is exactly twice the 7-bit remainder of the MSB-first
bit-by-bit division of byte `d` by the width-7 polynomial `0x09`. -/
theorem c3_tabel7_amendat (s : Stare) (d : Nat) (hd : d < 256) :
    (initializare_tabel7 s).tabel_CRC7 d = 2 * crc7_bit_cu_bit d := by
  have hmod : d % SIZE = d := Nat.mod_eq_of_lt hd
  show tabel7_element (d % SIZE) = 2 * crc7_bit_cu_bit d
  rw [hmod]
  exact tabel7_dublu_bit_cu_bit d hd

/-- Witness for C3's amended theorem at `d = 1`. -/
theorem c3_tabel7_amendat_martor :
    (initializare_tabel7 stare0).tabel_CRC7 1 = 2 * crc7_bit_cu_bit 1 :=
  c3_tabel7_amendat stare0 1 (by decide)

/-- C4 counterexample: entry `8` of the built CRC-7 lookup table is `0x90`,
which has bit 7 set, and it is also reached as a register state inside
`calculCRC7` (after the one-byte input `[0x08]`), so intermediate values of the
width-7 variant do have a bit at position 7 set. -/
theorem c4_contraexemplu :
    (initializare_tabel7 stare0).tabel_CRC7 8 = 0x90 ∧
      ¬ (initializare_tabel7 stare0).tabel_CRC7 8 < 2 ^ 7 ∧
      bucla7 (initializare_tabel7 stare0).tabel_CRC7 0 [8] = some 0x90 := by
  decide

/-- C4 (amended): the width-7 checksum is carried pre-shifted in bits 7..1 of an
8-bit register, so intermediate values (table entries, and with them the
register states of `calculCRC7`) never have a bit at position 8 or above set —
though bit 7 can be set — and the returned value `rezultat >>> 1` never has a
bit at position 7 or above set, whenever the computation is defined. -/
theorem c4_margini_amendat (s : Stare) (input : List Nat) (r : Nat)
    (h : calculCRC7 (initializare_tabel7 s) input = some r) :
    r < 2 ^ 7 ∧ ∀ d, (initializare_tabel7 s).tabel_CRC7 d < 2 ^ 8 := by
  constructor
  · obtain ⟨reg, hreg, hrv⟩ := Option.map_eq_some'.mp h
    have hlt : reg < 256 := bucla7_marginit _ input 0 (by decide) reg hreg
    have hsh : reg >>> 1 = reg / 2 := Nat.shiftRight_one reg
    omega
  · intro d
    show tabel7_element (d % SIZE) < 2 ^ 8
    exact tabel7_sub_256 (d % SIZE) (Nat.mod_lt d (by decide))

/-- Witness for C4's amended theorem on the check string. -/
theorem c4_margini_amendat_martor :
    (0x75 : Nat) < 2 ^ 7 ∧ ∀ d, (initializare_tabel7 stare0).tabel_CRC7 d < 2 ^ 8 :=
  c4_margini_amendat stare0 sirDeVerificare 0x75 (by decide)

/-- C5 (code bug): on a byte of value `0x80` or greater the index expression
`rezultat ^ input[bit]` of `calculCRC7` sign-extends to a negative `int` (there
is no `& 0xFF` mask), so the table access is out of bounds; evaluated at the
failing one-byte input `[0x80]`, the index pattern is outside `[0, SIZE)` and
the embedded `calculCRC7` reaches the out-of-bounds access (modelled `none`). -/
theorem c5_indice_nemascat :
    ¬ (0 : Nat) ^^^ charPattern 0x80 < SIZE ∧
      calculCRC7 stare_initializata [0x80] = none := by
  decide

/-- C6: on the empty input each compute function returns `init XOR xor_out` for
its variant: `calculCRC32` returns `0xFFFFFFFF ^^^ 0xFFFFFFFF = 0`,
`calculCRC16` returns `0`, and `calculCRC7` returns `0`, in every program
state. -/
theorem c6_intrare_vida (s : Stare) :
    calculCRC32 s [] = 0 ∧ calculCRC16 s [] = 0 ∧ calculCRC7 s [] = some 0 :=
  ⟨(calcul32_vid s).trans (by decide), (calcul16_vid s).trans (by decide),
    (calcul7_vid s).trans (by decide)⟩

/-- C7 counterexample: invoked in the start state, where the CRC-16 table still
holds zeros, `calculCRC16` does not build its table first: on input `"1"` it
returns `0`, different from the value `0xD4C1` it returns when the table is
built before the call. -/
theorem c7_contraexemplu :
    calculCRC16 stare0 [0x31] = 0 ∧
      calculCRC16 (initializare_tabel16 stare0) [0x31] = 0xD4C1 ∧
      calculCRC16 stare0 [0x31] ≠ calculCRC16 (initializare_tabel16 stare0) [0x31] := by
  decide

/-- C7 (amended): the compute functions read whatever table contents the state
holds and never build a table themselves; instead `main`'s menu guards each
compute option behind its initialization flag (warning and not computing when
the flag is unset), and in every menu-reachable state a set flag means the
tables are built, so a computation result obtained through the menu always
comes from the built table. -/
theorem c7_meniu_amendat (s : Stare) (h : Accesibil s) :
    (∀ input v, meniu_calcul_CRC32 s input = some v →
        v = calculCRC32 stare_initializata input) ∧
      (∀ input v, meniu_calcul_CRC16 s input = some v →
        v = calculCRC16 stare_initializata input) ∧
      (∀ input o, meniu_calcul_CRC7 s input = some o →
        o = calculCRC7 stare_initializata input) := by
  induction h with
  | start =>
      refine ⟨fun input v hv => ?_, fun input v hv => ?_, fun input o hv => ?_⟩ <;>
        exact Option.noConfusion hv
  | init s' h ih =>
      refine ⟨fun input v hv => ?_, fun input v hv => ?_, fun input o hv => ?_⟩ <;>
        exact (Option.some.inj hv).symm

/-- Witness for C7's amended theorem: in the state reached by running menu
option 1 from program start, the CRC-16 menu option on `"1"` yields the
built-table value. -/
theorem c7_meniu_amendat_martor :
    (0xD4C1 : Nat) = calculCRC16 stare_initializata [0x31] :=
  (c7_meniu_amendat (optiune_init_tabele stare0)
      (Accesibil.init stare0 Accesibil.start)).2.1 [0x31] 0xD4C1 rfl

/-- C8: with its table built, `calculCRC16` (whose `init` is 0) on the one-byte
input `[b]` equals the 8-step LSB-first division of `b` by polynomial `0xA001`
— the spec's bit-by-bit definition — which is table entry `b`. -/
theorem c8_un_octet (s : Stare) (b : Nat) (hb : b < 256) :
    calculCRC16 (initializare_tabel16 s) [b] = element_spec_reflectat polinomCRC16 b ∧
      calculCRC16 (initializare_tabel16 s) [b] = (initializare_tabel16 s).tabel_CRC16 b :=
  bucla16_un_octet b hb

/-- Witness for C8 at `b = 0x31`. -/
theorem c8_un_octet_martor :
    calculCRC16 (initializare_tabel16 stare0) [0x31] =
        element_spec_reflectat polinomCRC16 0x31 ∧
      calculCRC16 (initializare_tabel16 stare0) [0x31] =
        (initializare_tabel16 stare0).tabel_CRC16 0x31 :=
  c8_un_octet stare0 0x31 (by decide)

/-- C9 counterexample: on the one-byte input `[0x80]` the CRC-7 loop completes
no table lookup at all (its single access is out of bounds), not
`len(bytes) = 1` lookups. -/
theorem c9_contraexemplu :
    (bucla7_contor stare_initializata.tabel_CRC7 0 [0x80]).2 = 0 ∧
      (bucla7_contor stare_initializata.tabel_CRC7 0 [0x80]).2 ≠
        [(0x80 : Nat)].length := by
  decide

/-- C9 (amended): every compute loop terminates on every input (it is a total
function of the input list); `calculCRC32` and `calculCRC16` always perform
exactly `len(bytes)` table lookups, one per byte, and `calculCRC7` does so
whenever every input byte is below `0x80` — for a byte `0x80` or greater its
unmasked index makes the access out of bounds and the computation undefined. -/
theorem c9_numar_cautari_amendat (s : Stare) (r : Nat) (input : List Nat) :
    ((bucla32_contor s.tabel_CRC32 r input).2 = input.length ∧
      (bucla32_contor s.tabel_CRC32 r input).1 = bucla32 s.tabel_CRC32 r input) ∧
    ((bucla16_contor s.tabel_CRC16 r input).2 = input.length ∧
      (bucla16_contor s.tabel_CRC16 r input).1 = bucla16 s.tabel_CRC16 r input) ∧
    (r < 256 → (∀ b ∈ input, b % 256 < 128) →
      (bucla7_contor s.tabel_CRC7 r input).2 = input.length ∧
        (bucla7_contor s.tabel_CRC7 r input).1 = bucla7 s.tabel_CRC7 r input) :=
  ⟨bucla32_contor_conform _ input r, bucla16_contor_conform _ input r,
    fun hr hb => bucla7_contor_conform _ input r hr hb⟩

/-- Witness for C9's amended theorem on the check string. -/
theorem c9_numar_cautari_martor :
    (bucla7_contor stare_initializata.tabel_CRC7 0 sirDeVerificare).2 =
      sirDeVerificare.length :=
  ((c9_numar_cautari_amendat stare_initializata 0 sirDeVerificare).2.2 (by decide)
      (by decide)).1

/-- C10 counterexample: with the zero-initialized tables, `calculCRC7` on the
one-byte input `[0x80]` does not return `0`: the unmasked index is out of
bounds and the computation is undefined (`none`). -/
theorem c10_contraexemplu : calculCRC7 stare0 [0x80] ≠ some 0 := by
  decide

/-- C10 (amended): invoked while the tables still hold their zero-initialized
contents, `calculCRC16` returns `0` for every input string regardless of its
contents or length, and `calculCRC7` returns `0` for every input string whose
bytes are all below `0x80` (for a byte `0x80` or greater its unmasked index is
out of bounds). -/
theorem c10_tabele_zero_amendat (input : List Nat) :
    calculCRC16 stare0 input = 0 ∧
      ((∀ b ∈ input, b % 256 < 128) → calculCRC7 stare0 input = some 0) := by
  constructor
  · exact bucla16_tabel_zero input
  · intro hb
    show (bucla7 (fun _ => 0) 0 input).map (fun rezultat => rezultat >>> 1) = some 0
    rw [bucla7_tabel_zero input hb]
    rfl

/-- Witness for C10's amended theorem. -/
theorem c10_tabele_zero_martor :
    calculCRC16 stare0 [0x31, 0xC8] = 0 ∧ calculCRC7 stare0 [0x31, 0x32] = some 0 :=
  ⟨(c10_tabele_zero_amendat [0x31, 0xC8]).1,
    (c10_tabele_zero_amendat [0x31, 0x32]).2 (by decide)⟩

end Checksum
